import Mathlib

/-!
Shallow embedding of the multi-tier tile cache in `src/cache/cache.go`
(package `cache`) of ijo42/lod, together with the proxy handler's use of
the cache registry (the `handler` function in the same source file).

The tier backends (bigcache for the local in-memory tier, go-redis for
the remote tier) are external libraries: each call's outcome is injected
as a parameter of the model. The TilePacket codec is declared outside
this source file, so `Validate` is likewise an injected predicate on the
raw bytes; the control flow of `Fetch` depends only on its boolean
result and on `len(tile) == 0`.
-/

namespace LodCache

/-- Raw byte strings, modelled as lists of naturals. -/
abbrev Bytes := List Nat

/-- The slice of the proxy configuration that `cache.go` reads on the
request path: `Cache.MemEnabled`, `Cache.RedisEnabled` and
`Cache.RedisTTLDuration` (`0` means no remote TTL extension). -/
structure CacheConfig where
  memEnabled : Bool
  redisEnabled : Bool
  redisTTL : Nat
deriving DecidableEq

/-- Outcome of `c.internal.Get(key)` (bigcache, cache.go:194): bytes
found, `bigcache.ErrEntryNotFound`, or any other error. -/
inductive LocalGet
  | found (b : Bytes)
  | notFound
  | errOther
deriving DecidableEq

/-- Outcome of `c.external.Get(ctx, key)` followed by
`redisTile.Bytes()` (go-redis, cache.go:209-226): bytes found,
`redis.Nil` (not found), a failure of `Bytes()`, or any other error on
the command. -/
inductive RemoteGet
  | found (b : Bytes)
  | notFound
  | bytesErr
  | errOther
deriving DecidableEq

/-- What `Fetch` does at its public interface: return a tile pointer
(`hit`), return `nil` (`absent`), or abort the goroutine with a
run-time panic (`panics`). -/
inductive FetchOutcome
  | hit (t : Bytes)
  | absent
  | panics
deriving DecidableEq

/-- Observable effects of one `Cache.Fetch` call (cache.go:187-268).
`hitInc`/`missInc` are the increments applied to the Prometheus
counters; `invalidateCalled` records the synchronous
`c.Invalidate(key)` on the corruption path (cache.go:253);
`bgSet` records the dispatched `go c.Set(key, cachedTile, true)`
(cache.go:265) with its byte argument and variadic flag list;
`bgExpire` records the dispatched `go c.external.Expire(...)`
(cache.go:233); `cachedTile` is the value of the Go variable
`cachedTile` at the nil-check on cache.go:237 (a found-but-empty slice
is non-nil and reaches validation). -/
structure FetchResult where
  outcome : FetchOutcome
  hitInc : Nat
  missInc : Nat
  invalidateCalled : Bool
  bgSet : Option (Bytes × List Bool)
  bgExpire : Bool
  cachedTile : Option Bytes
deriving DecidableEq

/-- Abort with `return nil` and no other effect (cache.go:200, 218, 225). -/
def absRes : FetchResult :=
  ⟨.absent, 0, 0, false, none, false, none⟩

/-- Miss: increment the miss counter once and `return nil`
(cache.go:213-215 and cache.go:237-242). -/
def missRes : FetchResult :=
  ⟨.absent, 0, 1, false, none, false, none⟩

/-- Run-time panic: `util.Error(..., err.Error())` on cache.go:217
dereferences the Go variable `err`, which is `nil` whenever the local
tier did not run (the remote command error is in `redisTile.Err()`,
not in `err`). -/
def panicRes : FetchResult :=
  ⟨.panics, 0, 0, false, none, false, none⟩

/-- cache.go:244-268: `cachedTile` is non-nil (`= b`), so record the
Locals tag, increment the hit counter, wrap the bytes in a TilePacket
and check `len(tile) == 0 || !tile.Validate()`. On failure invalidate
the key from all tiers and return `nil`; on success dispatch
`go c.Set(key, cachedTile, true)` and return the tile. `expire` says
whether a `go c.external.Expire(...)` was dispatched on the way here
(cache.go:232-234). -/
def finishHit (v : Bytes → Bool) (b : Bytes) (expire : Bool) : FetchResult :=
  if b.length = 0 ∨ v b = false then
    ⟨.absent, 1, 0, true, none, expire, some b⟩
  else
    ⟨.hit b, 1, 0, false, some (b, [true]), expire, some b⟩

/-- cache.go:207-242: the remote phase of `Fetch`, entered with
`cachedTile == nil`. `errIsNil` is whether the Go variable `err` is
still `nil` here: it is `nil` exactly when the local tier was disabled
(on a local not-found, `err` holds `bigcache.ErrEntryNotFound`). When
the remote tier is disabled or produced nothing we fall through to the
miss exit on cache.go:237-242. -/
def remotePhase (cfg : CacheConfig) (v : Bytes → Bool) (rg : RemoteGet)
    (errIsNil : Bool) : FetchResult :=
  match cfg.redisEnabled, rg with
  | true, .notFound => missRes
  | true, .errOther => cond errIsNil panicRes absRes
  | true, .bytesErr => absRes
  | true, .found b => finishHit v b (decide (0 < cfg.redisTTL))
  | false, _ => missRes

/-- `Cache.Fetch` (cache.go:187-268) with tier outcomes injected.
Local phase (cache.go:192-205): a local error other than not-found
aborts with `nil`; found bytes skip the remote phase; not-found or a
disabled local tier proceed to the remote phase. -/
def fetchModel (cfg : CacheConfig) (v : Bytes → Bool) (lg : LocalGet)
    (rg : RemoteGet) : FetchResult :=
  match cfg.memEnabled, lg with
  | true, .errOther => absRes
  | true, .found b => finishHit v b false
  | true, .notFound => remotePhase cfg v rg false
  | false, _ => remotePhase cfg v rg true

/-- Which tiers one `Cache.Set` call writes (cache.go:278-299):
`remoteWrite` records the dispatched `go c.external.Set(...)`,
`localWrite` the synchronous `c.internal.Set(...)`; write errors are
logged only. -/
structure SetEffects where
  remoteWrite : Bool
  localWrite : Bool
deriving DecidableEq

/-- `Cache.Set` (cache.go:278-299). The remote write runs iff
`(len(internalOnly) == 0 || !internalOnly[0]) && RedisEnabled`
(cache.go:282); the local write runs iff `MemEnabled` (cache.go:293). -/
def setModel (cfg : CacheConfig) (internalOnly : List Bool) : SetEffects :=
  { remoteWrite :=
      (match internalOnly with
       | [] => true
       | b :: _ => !b) && cfg.redisEnabled,
    localWrite := cfg.memEnabled }

/-- A tier's key-value store, as an association list. -/
abbrev Store := List (String × Bytes)

/-- Lookup in a tier store. -/
def storeLookup : Store → String → Option Bytes
  | [], _ => none
  | (k2, v) :: rest, k => if k2 = k then some v else storeLookup rest k

/-- Remove a key from a tier store. -/
def storeDelete : Store → String → Store
  | [], _ => []
  | (k2, v) :: rest, k =>
      if k2 = k then storeDelete rest k else (k2, v) :: storeDelete rest k

/-- Result of a tier delete: success, not-found, or another error. -/
inductive DelOutcome
  | ok
  | notFound
  | errOther
deriving DecidableEq

/-- `c.internal.Delete(key)` (bigcache): removes the entry and reports
`ErrEntryNotFound` when the key is absent. Transient tier failures are
not modelled (the store either holds the key or it does not). -/
def localDelete (st : Store) (k : String) : DelOutcome × Store :=
  match storeLookup st k with
  | some _ => (.ok, storeDelete st k)
  | none => (.notFound, st)

/-- `c.external.Del(ctx, key)` (redis DEL): removes the key if present
and returns the deleted count; a missing key is not an error.
Transient tier failures are not modelled. -/
def remoteDelete (st : Store) (k : String) : DelOutcome × Store :=
  (.ok, storeDelete st k)

/-- The two tier stores of one Cache instance. -/
structure Tiers where
  localStore : Store
  remoteStore : Store
deriving DecidableEq

/-- The remote half of `Cache.Invalidate` (cache.go:311-316): delete
from redis if enabled; any error is returned. -/
def invalidateRemote (cfg : CacheConfig) (t : Tiers) (k : String) :
    Bool × Tiers :=
  match cfg.redisEnabled with
  | true =>
    match remoteDelete t.remoteStore k with
    | (.errOther, st) => (true, ⟨t.localStore, st⟩)
    | (_, st) => (false, ⟨t.localStore, st⟩)
  | false => (false, t)

/-- `Cache.Invalidate` (cache.go:302-319): delete from the local tier
if enabled — `ErrEntryNotFound` is tolerated, any other error returns
immediately (the remote tier is then not touched) — then delete from
the remote tier if enabled. The returned Bool is whether an error was
returned to the caller. -/
def invalidateState (cfg : CacheConfig) (t : Tiers) (k : String) :
    Bool × Tiers :=
  match cfg.memEnabled with
  | true =>
    match localDelete t.localStore k with
    | (.errOther, st) => (true, ⟨st, t.remoteStore⟩)
    | (_, st) => invalidateRemote cfg ⟨st, t.remoteStore⟩ k
  | false => invalidateRemote cfg t k

/-- Outcome of constructing one tier (`initInternal` / `initExternal`,
cache.go:112-140): success or failure (allocation, URL parse, or ping
failure). -/
inductive TierInit
  | ok
  | fail
deriving DecidableEq

/-- Registry state: `caches` holds one entry per instance stored into
the `Caches` map (cache.go:96), `metricRegs` one entry per
`initMetrics` call, i.e. per set of promauto counter registrations
(cache.go:92, 143-183). -/
structure RegState where
  caches : List String
  metricRegs : List String
deriving DecidableEq

/-- `buildInstance` (cache.go:61-109) with the tier-construction
outcomes injected; `proxies` is the list of configured proxy names,
and the matching proxy's tier flags are `memEnabled`/`redisEnabled`.
Under the lock the map is NOT re-checked: if a configured proxy
matches, the enabled tiers are constructed (a failure aborts with
`nil` and no state change), then metrics are registered and the
instance stored. No match logs and returns `nil`. The Bool is whether
a non-nil Cache was returned. -/
def buildInstance (proxies : List String) (memEnabled redisEnabled : Bool)
    (memInit redisInit : TierInit) (s : RegState) (name : String) :
    Bool × RegState :=
  if name ∈ proxies then
    match memEnabled, memInit with
    | true, .fail => (false, s)
    | _, _ =>
      match redisEnabled, redisInit with
      | true, .fail => (false, s)
      | _, _ => (true, ⟨name :: s.caches, name :: s.metricRegs⟩)
  else (false, s)

/-- `Get` (cache.go:52-58): return the stored instance if present,
otherwise call `buildInstance`. The check `Caches[name] == nil` is not
protected by the lock. -/
def getCache (proxies : List String) (memEnabled redisEnabled : Bool)
    (memInit redisInit : TierInit) (s : RegState) (name : String) :
    Bool × RegState :=
  if name ∈ s.caches then (true, s)
  else buildInstance proxies memEnabled redisEnabled memInit redisInit s name

/-- One permitted schedule of two concurrent `Get(name)` calls: both
goroutines evaluate the unsynchronized check `Caches[name] == nil`
(cache.go:53) against the same initial state before either takes the
lock; the lock then serializes the two `buildInstance` bodies
(cache.go:66-67), which never re-check the map. -/
def raceTwoGets (proxies : List String) (memEnabled redisEnabled : Bool)
    (memInit redisInit : TierInit) (s0 : RegState) (name : String) :
    RegState :=
  if name ∈ s0.caches then s0
  else
    (buildInstance proxies memEnabled redisEnabled memInit redisInit
      (buildInstance proxies memEnabled redisEnabled memInit redisInit
        s0 name).2 name).2

/-- The proxy handler's cache consultation,
`cache.Get(p.Name).Fetch(cacheKey)` (handler, cache.go:415, same
source file): there is no nil check on the result of `Get`, and
`Fetch` invoked on a nil receiver dereferences `c.Proxy`
(cache.go:193) and panics. -/
def fetchOnReceiver (c : Option CacheConfig) (v : Bytes → Bool)
    (lg : LocalGet) (rg : RemoteGet) : FetchOutcome :=
  match c with
  | none => .panics
  | some cfg => (fetchModel cfg v lg rg).outcome

/-- The hit-rate gauge of `initMetrics` (cache.go:164-176): the
CounterFunc recomputes `hits / (hits + misses)` from the current
counter values on every observation. The counters are modelled as
naturals and the float64 division as exact rational division; the IEEE
`0.0/0.0 = NaN` case (both counters zero) is modelled as `none`
(undefined). -/
def hitRate (hits misses : Nat) : Option ℚ :=
  if hits + misses = 0 then none
  else some ((hits : ℚ) / ((hits : ℚ) + (misses : ℚ)))

/-! Helper lemmas. -/

/-- Every `Fetch` result is one of the three early exits or a
`finishHit` on some found bytes. -/
theorem fetch_shape (cfg : CacheConfig) (v : Bytes → Bool) (lg : LocalGet)
    (rg : RemoteGet) :
    fetchModel cfg v lg rg = absRes ∨ fetchModel cfg v lg rg = missRes ∨
    fetchModel cfg v lg rg = panicRes ∨
    ∃ b e, fetchModel cfg v lg rg = finishHit v b e := by
  rcases cfg with ⟨me, re, ttl⟩
  cases me <;> cases lg <;> cases re <;> cases rg <;>
    first
      | exact Or.inl rfl
      | exact Or.inr (Or.inl rfl)
      | exact Or.inr (Or.inr (Or.inl rfl))
      | exact Or.inr (Or.inr (Or.inr ⟨_, _, rfl⟩))

theorem finishHit_cachedTile (v : Bytes → Bool) (b : Bytes) (e : Bool) :
    (finishHit v b e).cachedTile = some b := by
  unfold finishHit; split <;> rfl

theorem finishHit_bad (v : Bytes → Bool) (b : Bytes) (e : Bool)
    (h : b.length = 0 ∨ v b = false) :
    (finishHit v b e).outcome = .absent ∧
    (finishHit v b e).invalidateCalled = true := by
  unfold finishHit
  rw [if_pos h]
  exact ⟨rfl, rfl⟩

theorem finishHit_outcome_ne_panics (v : Bytes → Bool) (b : Bytes)
    (e : Bool) : (finishHit v b e).outcome ≠ .panics := by
  unfold finishHit; split <;> simp

theorem storeLookup_delete (st : Store) (k : String) :
    storeLookup (storeDelete st k) k = none := by
  induction st with
  | nil => rfl
  | cons p rest ih =>
    rcases p with ⟨k2, v⟩
    by_cases h : k2 = k
    · simp [storeDelete, h, ih]
    · simp [storeDelete, storeLookup, h, ih]

theorem invalidateRemote_noerr (cfg : CacheConfig) (t : Tiers)
    (k : String) : (invalidateRemote cfg t k).1 = false := by
  rcases cfg with ⟨me, re, ttl⟩
  cases re <;> rfl

theorem invalidateRemote_localStore (cfg : CacheConfig) (t : Tiers)
    (k : String) : (invalidateRemote cfg t k).2.localStore = t.localStore := by
  rcases cfg with ⟨me, re, ttl⟩
  cases re <;> rfl

theorem invalidateRemote_remoteStore (cfg : CacheConfig) (t : Tiers)
    (k : String) (hr : cfg.redisEnabled = true) :
    (invalidateRemote cfg t k).2.remoteStore = storeDelete t.remoteStore k := by
  rcases cfg with ⟨me, re, ttl⟩
  cases re
  · cases hr
  · rfl

theorem invalidateState_noerr (cfg : CacheConfig) (t : Tiers)
    (k : String) : (invalidateState cfg t k).1 = false := by
  rcases cfg with ⟨me, re, ttl⟩
  cases me
  · exact invalidateRemote_noerr ⟨false, re, ttl⟩ t k
  · show (match localDelete t.localStore k with
      | (.errOther, st) => (true, (⟨st, t.remoteStore⟩ : Tiers))
      | (_, st) => invalidateRemote ⟨true, re, ttl⟩ ⟨st, t.remoteStore⟩ k).1 = false
    unfold localDelete
    cases h : storeLookup t.localStore k <;>
      exact invalidateRemote_noerr _ _ _

theorem invalidateState_clears_local (cfg : CacheConfig) (t : Tiers)
    (k : String) (hm : cfg.memEnabled = true) :
    storeLookup (invalidateState cfg t k).2.localStore k = none := by
  rcases cfg with ⟨me, re, ttl⟩
  cases me
  · cases hm
  · show storeLookup (match localDelete t.localStore k with
      | (.errOther, st) => (true, (⟨st, t.remoteStore⟩ : Tiers))
      | (_, st) => invalidateRemote ⟨true, re, ttl⟩ ⟨st, t.remoteStore⟩ k).2.localStore k = none
    unfold localDelete
    cases h : storeLookup t.localStore k with
    | none =>
      show storeLookup
        (invalidateRemote ⟨true, re, ttl⟩ ⟨t.localStore, t.remoteStore⟩ k).2.localStore k = none
      rw [invalidateRemote_localStore]
      exact h
    | some b =>
      show storeLookup
        (invalidateRemote ⟨true, re, ttl⟩
          ⟨storeDelete t.localStore k, t.remoteStore⟩ k).2.localStore k = none
      rw [invalidateRemote_localStore]
      exact storeLookup_delete _ _

theorem invalidateState_clears_remote (cfg : CacheConfig) (t : Tiers)
    (k : String) (hr : cfg.redisEnabled = true) :
    storeLookup (invalidateState cfg t k).2.remoteStore k = none := by
  rcases cfg with ⟨me, re, ttl⟩
  cases me
  · rw [show (invalidateState ⟨false, re, ttl⟩ t k) = invalidateRemote ⟨false, re, ttl⟩ t k from rfl,
      invalidateRemote_remoteStore _ _ _ hr]
    exact storeLookup_delete _ _
  · show storeLookup (match localDelete t.localStore k with
      | (.errOther, st) => (true, (⟨st, t.remoteStore⟩ : Tiers))
      | (_, st) => invalidateRemote ⟨true, re, ttl⟩ ⟨st, t.remoteStore⟩ k).2.remoteStore k = none
    unfold localDelete
    cases h : storeLookup t.localStore k with
    | none =>
      show storeLookup
        (invalidateRemote ⟨true, re, ttl⟩ ⟨t.localStore, t.remoteStore⟩ k).2.remoteStore k = none
      rw [invalidateRemote_remoteStore _ _ _ hr]
      exact storeLookup_delete _ _
    | some b =>
      show storeLookup
        (invalidateRemote ⟨true, re, ttl⟩
          ⟨storeDelete t.localStore k, t.remoteStore⟩ k).2.remoteStore k = none
      rw [invalidateRemote_remoteStore _ _ _ hr]
      exact storeLookup_delete _ _

/-! Claim theorems. -/

/-- Claim C1: whenever `Fetch` finds bytes in some tier (the Go
variable `cachedTile` is non-nil at the validation point) but the
decoded TilePacket is empty or fails `Validate`, `Fetch` returns
absent (so the corrupt bytes are never returned as a cache hit) and
calls `Invalidate(key)`, which removes the key from every enabled
tier. -/
theorem fetch_corrupt_self_heals (cfg : CacheConfig) (v : Bytes → Bool)
    (lg : LocalGet) (rg : RemoteGet) (b : Bytes) (k : String) (t : Tiers)
    (hfound : (fetchModel cfg v lg rg).cachedTile = some b)
    (hbad : b.length = 0 ∨ v b = false) :
    (fetchModel cfg v lg rg).outcome = .absent ∧
    (fetchModel cfg v lg rg).invalidateCalled = true ∧
    (cfg.memEnabled = true →
      storeLookup (invalidateState cfg t k).2.localStore k = none) ∧
    (cfg.redisEnabled = true →
      storeLookup (invalidateState cfg t k).2.remoteStore k = none) := by
  refine ⟨?_, ?_, fun hm => invalidateState_clears_local cfg t k hm,
    fun hr => invalidateState_clears_remote cfg t k hr⟩ <;>
  · rcases fetch_shape cfg v lg rg with h | h | h | ⟨b2, e, h⟩ <;>
      rw [h] at hfound ⊢
    · cases hfound
    · cases hfound
    · cases hfound
    · rw [finishHit_cachedTile] at hfound
      injection hfound with hb
      subst hb
      first
        | exact (finishHit_bad v _ e hbad).1
        | exact (finishHit_bad v _ e hbad).2

/-- Witness for C1 at a concrete input: local tier enabled, bytes
`[1]` found locally, validation fails. -/
theorem fetch_corrupt_self_heals_wit :
    (fetchModel ⟨true, false, 0⟩ (fun _ => false) (.found [1]) .notFound).outcome
      = .absent ∧
    (fetchModel ⟨true, false, 0⟩ (fun _ => false) (.found [1]) .notFound).invalidateCalled
      = true ∧
    storeLookup
      (invalidateState ⟨true, false, 0⟩ ⟨[("k", [1])], []⟩ "k").2.localStore "k"
      = none :=
  ⟨(fetch_corrupt_self_heals ⟨true, false, 0⟩ (fun _ => false) (.found [1])
      .notFound [1] "k" ⟨[("k", [1])], []⟩ rfl (Or.inr rfl)).1,
   (fetch_corrupt_self_heals ⟨true, false, 0⟩ (fun _ => false) (.found [1])
      .notFound [1] "k" ⟨[("k", [1])], []⟩ rfl (Or.inr rfl)).2.1,
   (fetch_corrupt_self_heals ⟨true, false, 0⟩ (fun _ => false) (.found [1])
      .notFound [1] "k" ⟨[("k", [1])], []⟩ rfl (Or.inr rfl)).2.2.1 rfl⟩

/-- Claim C2 (refuted, code bug): `buildInstance` never re-checks
`Caches[name]` after taking the lock, so in the schedule where two
concurrent `Get("osm")` calls both pass the unsynchronized nil check
before either builds, both build an instance and both register
metrics: the final registry state holds two stored instances and two
metric registrations for "osm" (promauto panics on a duplicate
registration). -/
theorem get_double_build_bug :
    raceTwoGets ["osm"] true true .ok .ok ⟨[], []⟩ "osm" =
      ⟨["osm", "osm"], ["osm", "osm"]⟩ := by
  decide

/-- Claim C3 (refuted, code bug): with the local tier disabled and the
remote tier returning an error other than not-found, `Fetch` does not
return absent: the log call on cache.go:217 evaluates `err.Error()`
on a still-nil `err` and panics. The metrics counters are unchanged. -/
theorem fetch_remote_error_bug (v : Bytes → Bool) (lg : LocalGet)
    (ttl : Nat) :
    (fetchModel ⟨false, true, ttl⟩ v lg .errOther).outcome = .panics ∧
    (fetchModel ⟨false, true, ttl⟩ v lg .errOther).hitInc = 0 ∧
    (fetchModel ⟨false, true, ttl⟩ v lg .errOther).missInc = 0 :=
  ⟨rfl, rfl, rfl⟩

/-- Claim C4: on every valid cache hit, `Fetch` dispatches
`go c.Set(key, cachedTile, true)` with exactly the found bytes and the
local-only flag, and `Set` invoked with that flag performs no remote
write even when the remote tier is enabled; it writes the local tier
iff it is enabled. -/
theorem hit_refresh_local_only (cfg : CacheConfig) (v : Bytes → Bool)
    (lg : LocalGet) (rg : RemoteGet) (tile : Bytes)
    (hhit : (fetchModel cfg v lg rg).outcome = .hit tile) :
    (fetchModel cfg v lg rg).bgSet = some (tile, [true]) ∧
    (setModel cfg [true]).remoteWrite = false ∧
    (setModel cfg [true]).localWrite = cfg.memEnabled := by
  refine ⟨?_, by simp [setModel], rfl⟩
  rcases fetch_shape cfg v lg rg with h | h | h | ⟨b, e, h⟩ <;>
    rw [h] at hhit ⊢
  · cases hhit
  · cases hhit
  · cases hhit
  · unfold finishHit at hhit ⊢
    by_cases hb : b.length = 0 ∨ v b = false
    · rw [if_pos hb] at hhit
      cases hhit
    · rw [if_neg hb] at hhit ⊢
      have hbt : b = tile := by
        have : FetchOutcome.hit b = .hit tile := hhit
        injection this
      subst hbt
      rfl

/-- Witness for C4 at a concrete input: both tiers enabled, bytes `[1]`
found locally, validation passes. -/
theorem hit_refresh_local_only_wit :
    (fetchModel ⟨true, true, 0⟩ (fun _ => true) (.found [1]) .notFound).bgSet
      = some ([1], [true]) ∧
    (setModel ⟨true, true, 0⟩ [true]).remoteWrite = false ∧
    (setModel ⟨true, true, 0⟩ [true]).localWrite = true :=
  hit_refresh_local_only ⟨true, true, 0⟩ (fun _ => true) (.found [1])
    .notFound [1] rfl

/-- Claim C5 (refuted, code bug): `Get` with a name matching no proxy
configuration does return nil with no state change, but the proxy
handler is not nil-safe: it calls `Fetch` directly on the result of
`cache.Get(p.Name)`, and `Fetch` on a nil receiver dereferences
`c.Proxy` and panics. -/
theorem get_unknown_nil_handler_panics :
    getCache ["osm"] true true .ok .ok ⟨[], []⟩ "planet" = (false, ⟨[], []⟩) ∧
    fetchOnReceiver none (fun _ => true) .notFound .notFound = .panics := by
  exact ⟨by decide, rfl⟩

/-- Claim C6: `Invalidate` is idempotent — a second `Invalidate(key)`
immediately after a first one never returns an error (tier deletes
reporting not-found are treated as success; transient tier failures
are outside the model). In fact no `Invalidate` call errors in this
failure-free tier model. -/
theorem invalidate_idempotent (cfg : CacheConfig) (t : Tiers) (k : String) :
    (invalidateState cfg (invalidateState cfg t k).2 k).1 = false :=
  invalidateState_noerr cfg (invalidateState cfg t k).2 k

/-- Claim C7: instance construction is atomic with respect to tier
failures — if any enabled tier fails to construct, `Get` returns nil
and the registry state is unchanged: no instance stored, no metrics
registered. -/
theorem build_atomic (proxies : List String) (me re : Bool)
    (mi ri : TierInit) (s : RegState) (name : String)
    (habsent : name ∉ s.caches)
    (hfail : (me = true ∧ mi = .fail) ∨ (re = true ∧ ri = .fail)) :
    getCache proxies me re mi ri s name = (false, s) := by
  unfold getCache
  rw [if_neg habsent]
  unfold buildInstance
  by_cases hp : name ∈ proxies
  · rw [if_pos hp]
    rcases hfail with ⟨hme, hmi⟩ | ⟨hre, hri⟩
    · subst hme; subst hmi; rfl
    · subst hre; subst hri
      cases me <;> cases mi <;> rfl
  · rw [if_neg hp]

/-- Witness for C7: local tier enabled and failing to construct for a
configured name with no existing instance. -/
theorem build_atomic_wit :
    getCache ["osm"] true true .fail .ok ⟨[], []⟩ "osm" = (false, ⟨[], []⟩) :=
  build_atomic ["osm"] true true .fail .ok ⟨[], []⟩ "osm"
    (List.not_mem_nil "osm") (Or.inl ⟨rfl, rfl⟩)

/-- Claim C8: with both tiers disabled, every `Fetch` returns absent (a
guaranteed miss) and every `Set` — with or without the local-only
flag — writes to no tier. -/
theorem disabled_tiers_noop (ttl : Nat) (v : Bytes → Bool) (lg : LocalGet)
    (rg : RemoteGet) (io : List Bool) :
    (fetchModel ⟨false, false, ttl⟩ v lg rg).outcome = .absent ∧
    (setModel ⟨false, false, ttl⟩ io).remoteWrite = false ∧
    (setModel ⟨false, false, ttl⟩ io).localWrite = false :=
  ⟨rfl, by simp [setModel], rfl⟩

/-- Claim C9: the hit-rate gauge recomputes `hits / (hits + misses)`
from the current counter values at every observation point; when the
denominator is nonzero it equals that quotient exactly, and when both
counters are zero it consistently reports the undefined value (IEEE
NaN, modelled as `none`). -/
theorem hitRate_spec (h m : Nat) (hnz : h + m ≠ 0) :
    hitRate h m = some ((h : ℚ) / ((h : ℚ) + (m : ℚ))) ∧
    hitRate 0 0 = none := by
  constructor
  · unfold hitRate
    rw [if_neg hnz]
  · rfl

/-- Witness for C9 at hits = 3, misses = 1. -/
theorem hitRate_spec_wit :
    hitRate 3 1 = some ((3 : ℚ) / ((3 : ℚ) + (1 : ℚ))) ∧
    hitRate 0 0 = none :=
  hitRate_spec 3 1 (by decide)

/-- Claim C10 (refuted, code bug): `Fetch` is not total — it panics
exactly when the local tier is disabled, the remote tier is enabled,
and the remote lookup fails with an error other than not-found: the
log call on cache.go:217 evaluates `err.Error()` with `err` still
nil. In every other combination of tier enablement and per-tier
outcomes, `Fetch` returns a tile or absent. -/
theorem fetch_panic_iff (cfg : CacheConfig) (v : Bytes → Bool)
    (lg : LocalGet) (rg : RemoteGet) :
    (fetchModel cfg v lg rg).outcome = .panics ↔
      cfg.memEnabled = false ∧ cfg.redisEnabled = true ∧ rg = .errOther := by
  rcases cfg with ⟨me, re, ttl⟩
  cases me <;> cases lg <;> cases re <;> cases rg <;>
    simp [fetchModel, remotePhase, absRes, missRes, panicRes,
      finishHit_outcome_ne_panics]

end LodCache
